import Mathlib

/-!
Verification development for the staff-operations backend
(CAPSTONE_HOME_CARE_BE_STAFF_SERVICE).

The development shallowly embeds the two core subsystems:

* the booking workflow engine of `src/repositories/staff.repository.ts`
  (inspection-report creation/update, work-log check-in/check-out), together
  with the relevant service-layer validation of `src/services/staff.service.ts`;
* the TCP framing and dispatch layer of `src/app.ts` and
  `src/handlers/tcp-handler.ts`.

Modelling conventions:

* Timestamps are integer milliseconds since the epoch (`Date.getTime()`).
  JavaScript computes elapsed hours/days with real division; we use `ℚ`, which
  is exact for these quotients of integers.
* The persistent store is a record of lists.  Prisma `findUnique`/`findFirst`
  are `List.find?`; `update` maps over the list; `create` appends.
* Each repository operation runs inside `prisma.$transaction` (or performs all
  its writes after every check).  We model an operation as
  `Store → Except (AppErr × Store) (Result × Store)`: a thrown error carries
  the store as it was at the throw point, with no rollback applied.  Showing
  that the carried store equals the initial store proves that no write ever
  precedes a throw, hence that partial application is unobservable.
* Prisma `update`/`connect` on a row that was already read in the same
  transaction cannot fail; rows referenced by foreign keys of rows already
  read are modelled as updated-in-place by `List.map` (a no-op when absent,
  which under the schema's foreign-key constraints never happens).
-/

namespace StaffSvc

/-! ## Data model (from `src/generated/prisma/schema.prisma`) -/

/-- Booking.status ∈ {PENDING, CONFIRMED, COMPLETED, CANCELLED}. -/
inductive BookingStatus where
  | PENDING | CONFIRMED | COMPLETED | CANCELLED
deriving DecidableEq, Repr

/-- ServiceRequest.status. -/
inductive RequestStatus where
  | PENDING | IN_PROGRESS | ESTIMATED | CANCELLED
deriving DecidableEq, Repr

/-- ServiceRequest row: `id Int @id`, `preferredDate DateTime`, `status`. -/
structure ServiceRequest where
  id : Nat
  preferredDate : Int
  status : RequestStatus
deriving DecidableEq, Repr

/-- Booking row: `id`, `status`, optional `staffId`, optional unique
`serviceRequestId`. -/
structure Booking where
  id : Nat
  status : BookingStatus
  staffId : Option Nat
  serviceRequestId : Option Nat
deriving DecidableEq, Repr

/-- InspectionReport row: `bookingId Int @unique`, `staffId`, optional
`estimatedTime`/`note`, `images String[]`, `createdAt DateTime`. -/
structure InspectionReport where
  id : Nat
  bookingId : Nat
  staffId : Nat
  estimatedTime : Option Int
  note : Option String
  images : List String
  createdAt : Int
deriving DecidableEq, Repr

/-- WorkLog row: `staffId`, `bookingId`, nullable `checkIn`/`checkOut`,
`updatedAt`. -/
structure WorkLog where
  id : Nat
  staffId : Nat
  bookingId : Nat
  checkIn : Option Int
  checkOut : Option Int
  updatedAt : Int
deriving DecidableEq, Repr

/-- The store: the four tables the workflow engine touches. -/
structure Store where
  bookings : List Booking
  serviceRequests : List ServiceRequest
  reports : List InspectionReport
  workLogs : List WorkLog
deriving DecidableEq, Repr

/-- AppError as thrown by the repository/service layer: constructor arguments
`error` (human text), `messageObject[0].message` (machine code, stored in
`code`), `messageObject[0].path`, and `statusCode`. -/
structure AppErr where
  error : String
  code : String
  path : List String
  statusCode : Nat
deriving DecidableEq, Repr

/-- Transactional outcome: a thrown error carries the store at the throw
point (no rollback modelled); success carries the result and the new store. -/
abbrev TxResult (α : Type) := Except (AppErr × Store) (α × Store)

/-! ## Time helpers (`staff.repository.ts` lines 97-103) -/

/-- MAX_UPDATE_HOURS = 24. -/
def MAX_UPDATE_HOURS : ℚ := 24

/-- MAX_CHECKOUT_HOURS = 24. -/
def MAX_CHECKOUT_HOURS : ℚ := 24

/-- MAX_DATE_DIFF_DAYS = 1. -/
def MAX_DATE_DIFF_DAYS : ℤ := 1

/-- calculateHoursDifference: `(endDate.getTime() - startDate.getTime()) /
(1000 * 60 * 60)`, exact rational division. -/
def calculateHoursDifference (startDate endDate : Int) : ℚ :=
  ((endDate - startDate : ℤ) : ℚ) / (1000 * 60 * 60)

/-- calculateDaysDifference: `Math.abs(Math.floor((date1.getTime() -
date2.getTime()) / (1000 * 60 * 60 * 24)))`. -/
def calculateDaysDifference (date1 date2 : Int) : ℤ :=
  |⌊((date1 - date2 : ℤ) : ℚ) / (1000 * 60 * 60 * 24)⌋|

/-! Rational arithmetic does not reduce inside the kernel, so the operation
bodies use integer forms of the two time tests and the lemmas
`hoursGtBound_iff` and `calculateDaysDifferenceInt_eq` prove them equal to
the rational formulas above. -/

/-- Integer form of `calculateHoursDifference startDate endDate > bound`:
for an integer millisecond difference, `δ / 3600000 > bound ↔
δ > bound * 3600000` exactly. -/
def hoursGtBound (startDate endDate : Int) (bound : ℤ) : Bool :=
  decide (bound * (1000 * 60 * 60) < endDate - startDate)

/-- The integer hour test decides the rational comparison of the source. -/
theorem hoursGtBound_iff (startDate endDate : Int) (bound : ℤ) :
    hoursGtBound startDate endDate bound = true ↔
      calculateHoursDifference startDate endDate > (bound : ℚ) := by
  rw [hoursGtBound, calculateHoursDifference, gt_iff_lt, lt_div_iff₀ (by norm_num),
    decide_eq_true_eq]
  constructor
  · intro h
    have h2 : ((bound * (1000 * 60 * 60) : ℤ) : ℚ) < ((endDate - startDate : ℤ) : ℚ) := by
      exact_mod_cast h
    push_cast at h2 ⊢
    linarith
  · intro h
    have h2 : ((bound * (1000 * 60 * 60) : ℤ) : ℚ) < ((endDate - startDate : ℤ) : ℚ) := by
      push_cast at h ⊢
      linarith
    exact_mod_cast h2

/-- Integer form of `calculateDaysDifference`: `Math.floor` of the real
quotient by the positive constant 86400000 is integer floor division. -/
def calculateDaysDifferenceInt (date1 date2 : Int) : ℤ :=
  |(date1 - date2) / (1000 * 60 * 60 * 24)|

/-- The integer day difference equals the source's floored rational form. -/
theorem calculateDaysDifferenceInt_eq (date1 date2 : Int) :
    calculateDaysDifferenceInt date1 date2 = calculateDaysDifference date1 date2 := by
  rw [calculateDaysDifferenceInt, calculateDaysDifference]
  congr 1
  have h := Rat.floor_intCast_div_natCast (date1 - date2) (1000 * 60 * 60 * 24)
  rw [show ((1000 * 60 * 60 * 24 : ℕ) : ℤ) = (1000 * 60 * 60 * 24 : ℤ) by norm_num] at h
  rw [← h]
  norm_num

/-! ## Repository operations (`src/repositories/staff.repository.ts`) -/

/-- Input of `createInspectionReport` after the service layer assembled the
Prisma create input (`Booking.connect.id`, `Staff.connect.id`, fields). -/
structure InspectionCreateInput where
  bookingId : Nat
  staffId : Nat
  estimatedTime : Option Int
  note : Option String
  images : List String
deriving DecidableEq, Repr

/-- StaffRepository.createInspectionReport (lines 262-292): inside one
transaction, validate the booking connection, reject with
`Error.InspectionReportExists` when a report for the booking already exists,
otherwise create the report.  `newId` models the autoincremented primary key,
`now` the database `createdAt` default. -/
def createInspectionReport (s : Store) (data : InspectionCreateInput)
    (now : Int) (newId : Nat) : TxResult InspectionReport :=
  match s.reports.find? (fun r => r.bookingId == data.bookingId) with
  | some _ =>
      .error ({ error := "Inspection report already exists for this booking",
                code := "Error.InspectionReportExists",
                path := ["bookingId"], statusCode := 400 }, s)
  | none =>
      let rep : InspectionReport :=
        { id := newId, bookingId := data.bookingId, staffId := data.staffId,
          estimatedTime := data.estimatedTime, note := data.note,
          images := data.images, createdAt := now }
      .ok (rep, { s with reports := s.reports ++ [rep] })

/-- Update payload accepted by `updateInspectionReport`: the three mutable
fields, each `none` when absent from the Prisma update input. -/
structure InspectionUpdateData where
  note : Option String
  images : Option (List String)
  estimatedTime : Option Int
deriving DecidableEq, Repr

/-- Prisma `inspectionReport.update`: fields present in the payload replace
the row's fields, absent fields are kept. -/
def applyInspectionUpdate (r : InspectionReport) (d : InspectionUpdateData) :
    InspectionReport :=
  { r with
    note := match d.note with | some n => some n | none => r.note,
    images := match d.images with | some i => i | none => r.images,
    estimatedTime := match d.estimatedTime with
      | some t => some t | none => r.estimatedTime }

/-- StaffRepository.updateInspectionReport (lines 509-553): find the report
(404 `NotFound` when absent), reject with `Error.ReportUpdateTooLate` when
`calculateHoursDifference(report.createdAt, now) > MAX_UPDATE_HOURS`,
otherwise apply the update. -/
def updateInspectionReport (s : Store) (id : Nat) (data : InspectionUpdateData)
    (now : Int) : TxResult InspectionReport :=
  match s.reports.find? (fun r => r.id == id) with
  | none =>
      .error ({ error := "Inspection report not found", code := "NotFound",
                path := ["id"], statusCode := 404 }, s)
  | some report =>
      if hoursGtBound report.createdAt now 24 then
        .error ({ error := "Inspection report can no longer be updated after 24 hours",
                  code := "Error.ReportUpdateTooLate",
                  path := ["id"], statusCode := 400 }, s)
      else
        .ok (applyInspectionUpdate report data,
             { s with reports :=
                 s.reports.map (fun r =>
                   if r.id == id then applyInspectionUpdate r data else r) })

/-- The ServiceRequest joined to a booking by
`include: { ServiceRequest: ... }` (the relation follows
`booking.serviceRequestId`). -/
def bookingServiceRequest (s : Store) (b : Booking) : Option ServiceRequest :=
  b.serviceRequestId.bind (fun srId =>
    s.serviceRequests.find? (fun sr => sr.id == srId))

/-- StaffRepository.createWorkLogWithStatusUpdate (lines 680-773), the
STAFF_CREATE_WORK_LOG (check-in) transaction: find the booking with its
ServiceRequest (404 `Error.BookingNotFound`), reject COMPLETED/CANCELLED
bookings (`Error.InvalidBookingStatusForCheckIn`), reject when any WorkLog
for `(bookingId, staffId)` exists (`Error.AlreadyCheckedIn`), reject when a
preferred date exists and `calculateDaysDifference(now, preferredDate) >
MAX_DATE_DIFF_DAYS` (`Error.DateMismatchPreferredDate`), reject when
`booking.ServiceRequest?.id` is falsy (500 `Error.MissingServiceRequestId`),
then create the WorkLog with `checkIn = now` and set the ServiceRequest
status to IN_PROGRESS.  `newLogId` models the autoincremented key. -/
def createWorkLogWithStatusUpdate (s : Store) (staffId bookingId : Nat)
    (now : Int) (newLogId : Nat) : TxResult WorkLog :=
  match s.bookings.find? (fun b => b.id == bookingId) with
  | none =>
      .error ({ error := "Booking not found", code := "Error.BookingNotFound",
                path := ["bookingId"], statusCode := 404 }, s)
  | some booking =>
      if booking.status = .COMPLETED ∨ booking.status = .CANCELLED then
        .error ({ error := "Cannot check in to a completed or canceled booking",
                  code := "Error.InvalidBookingStatusForCheckIn",
                  path := ["bookingId"], statusCode := 400 }, s)
      else
        match s.workLogs.find? (fun w =>
            w.bookingId == bookingId && w.staffId == staffId) with
        | some _ =>
            .error ({ error := "Staff already checked in for this booking",
                      code := "Error.AlreadyCheckedIn",
                      path := ["bookingId"], statusCode := 400 }, s)
        | none =>
            match bookingServiceRequest s booking with
            | some sr =>
                if calculateDaysDifferenceInt now sr.preferredDate >
                    MAX_DATE_DIFF_DAYS then
                  .error ({ error := "Cannot check in far from preferred date",
                            code := "Error.DateMismatchPreferredDate",
                            path := ["bookingId"], statusCode := 400 }, s)
                else if sr.id == 0 then
                  -- `!booking.ServiceRequest?.id`: the id 0 is falsy in JS
                  .error ({ error := "Missing ServiceRequest ID",
                            code := "Error.MissingServiceRequestId",
                            path := ["bookingId"], statusCode := 500 }, s)
                else
                  let wl : WorkLog :=
                    { id := newLogId, staffId := staffId, bookingId := bookingId,
                      checkIn := some now, checkOut := none, updatedAt := now }
                  .ok (wl,
                    { s with
                      workLogs := s.workLogs ++ [wl],
                      serviceRequests := s.serviceRequests.map (fun q =>
                        if q.id == sr.id then { q with status := .IN_PROGRESS }
                        else q) })
            | none =>
                -- no joined ServiceRequest: the preferred-date check is
                -- skipped and `!booking.ServiceRequest?.id` throws
                .error ({ error := "Missing ServiceRequest ID",
                          code := "Error.MissingServiceRequestId",
                          path := ["bookingId"], statusCode := 500 }, s)

/-- Result row of a successful check-out. -/
structure CheckOutResult where
  message : String
  bookingId : Nat
  updatedAt : Int
deriving DecidableEq, Repr

/-- StaffRepository.checkOutWorkLogByBookingId (lines 775-838), the
STAFF_CHECK_OUT transaction: `findFirst` the booking's WorkLog (404
`NotFound`), reject when `checkOut` is set (`Error.AlreadyCheckedOut`) or
`checkIn` missing (`Error.MissingCheckIn`), reject when
`calculateHoursDifference(checkIn, now) > MAX_CHECKOUT_HOURS`
(`Error.CheckOutTooLate`), then set `checkOut = now` on that WorkLog and the
booking's status to COMPLETED. -/
def checkOutWorkLogByBookingId (s : Store) (bookingId : Nat) (now : Int) :
    TxResult CheckOutResult :=
  match s.workLogs.find? (fun w => w.bookingId == bookingId) with
  | none =>
      .error ({ error := "Work log not found", code := "NotFound",
                path := ["bookingId"], statusCode := 404 }, s)
  | some log =>
      if log.checkOut.isSome then
        .error ({ error := "Already checked out", code := "Error.AlreadyCheckedOut",
                  path := ["bookingId"], statusCode := 400 }, s)
      else
        match log.checkIn with
        | none =>
            .error ({ error := "Check-in time is missing",
                      code := "Error.MissingCheckIn",
                      path := ["bookingId"], statusCode := 400 }, s)
        | some checkInTime =>
            if hoursGtBound checkInTime now 24 then
              .error ({ error := "Check-out expired", code := "Error.CheckOutTooLate",
                        path := ["bookingId"], statusCode := 400 }, s)
            else
              .ok ({ message := "Check-out successful", bookingId := bookingId,
                     updatedAt := now },
                   { s with
                     workLogs := s.workLogs.map (fun w =>
                       if w.id == log.id then
                         { w with checkOut := some now, updatedAt := now }
                       else w),
                     bookings := s.bookings.map (fun b =>
                       if b.id == bookingId then { b with status := .COMPLETED }
                       else b) })

/-! ## Service layer (`src/services/staff.service.ts`) -/

/-- Dto of UPDATE_INSPECTION_REPORT as received by the service layer. -/
structure UpdateInspectionReportDto where
  note : Option String
  images : Option (List String)
  estimatedTime : Option Int
deriving DecidableEq, Repr

/-- An ASCII whitespace character as removed by `String.prototype.trim`
(restricted to the ASCII range, which is all that the data here uses). -/
def isJsWsChar (c : Char) : Bool :=
  c == ' ' || c == '\t' || c == '\n' || c == '\r' ||
  c == Char.ofNat 11 || c == Char.ofNat 12

/-- `note.trim()` on the character-list model of strings. -/
def jsTrim (s : String) : String :=
  String.mk (((s.data.dropWhile isJsWsChar).reverse.dropWhile isJsWsChar).reverse)

/-- StaffService.updateInspectionReport's `hasValidUpdates`:
`note?.trim() || (images && images.length > 0) || estimatedTime` —
a non-whitespace note, a non-empty image list, or a non-zero (truthy)
estimated time. -/
def hasValidUpdates (dto : UpdateInspectionReportDto) : Bool :=
  (dto.note.any (fun n => jsTrim n ≠ "")) ||
  (dto.images.any (fun i => i ≠ [])) ||
  (dto.estimatedTime.any (fun t => t ≠ 0))

/-- The `updateData` object assembled by the service: each field is included
exactly when its truthiness test passes (`note?.trim()`, non-empty `images`,
truthy `estimatedTime`); the note is trimmed. -/
def buildUpdateData (dto : UpdateInspectionReportDto) : InspectionUpdateData :=
  { note := match dto.note with
      | some n => if jsTrim n ≠ "" then some (jsTrim n) else none
      | none => none,
    images := match dto.images with
      | some i => if i ≠ [] then some i else none
      | none => none,
    estimatedTime := match dto.estimatedTime with
      | some t => if t ≠ 0 then some t else none
      | none => none }

/-- StaffService.updateInspectionReport (service layer): reject with 400
`Error.NoValidUpdateData` when no valid field is supplied, otherwise call the
repository with the assembled update data. -/
def serviceUpdateInspectionReport (s : Store) (inspectionId : Nat)
    (dto : UpdateInspectionReportDto) (now : Int) : TxResult InspectionReport :=
  if hasValidUpdates dto then
    updateInspectionReport s inspectionId (buildUpdateData dto) now
  else
    .error ({ error := "No valid update data provided",
              code := "Error.NoValidUpdateData",
              path := ["note", "images", "estimatedTime"], statusCode := 400 }, s)

/-! ## Message framer (`src/app.ts` lines 175-194 and 127-145)

Buffers are lists of bytes; the frame delimiter is the byte 10 (`\n`).
`extractMessages` repeatedly splits off the segment before the first newline,
decodes and trims it (`messageBuffer.toString('utf8').trim()`), keeps it when
non-empty, and leaves the bytes after the last newline as the residual.
Trimming is modelled at the byte level on the ASCII whitespace bytes, which
is what `String.prototype.trim` removes for ASCII data. -/

/-- Bytes removed by trimming: TAB, LF, VT, FF, CR, SPACE. -/
def isWsByte (b : Nat) : Bool :=
  b == 9 || b == 10 || b == 11 || b == 12 || b == 13 || b == 32

/-- Byte-level `trim`: drop whitespace from both ends. -/
def trimBytes (l : List Nat) : List Nat :=
  ((l.dropWhile isWsByte).reverse.dropWhile isWsByte).reverse

/-- Push a trimmed frame unless it is empty (`if (messageStr) push`). -/
def pushFrame (msg : List Nat) (ms : List (List Nat)) : List (List Nat) :=
  if trimBytes msg = [] then ms else trimBytes msg :: ms

/-- Worker of `extractMessages`: `cur` is the reversed prefix of the frame
currently being scanned; on each newline the frame is emitted (via
`pushFrame`) and scanning restarts; the final `cur` is the residual. -/
def extractGo : List Nat → List Nat → List (List Nat) × List Nat
  | cur, [] => ([], cur.reverse)
  | cur, b :: bs =>
    if b == 10 then
      let r := extractGo [] bs
      (pushFrame cur.reverse r.1, r.2)
    else
      extractGo (b :: cur) bs

/-- TCPMicroservice.extractMessages: split the buffer at every newline,
returning the complete (trimmed, non-blank) frames in order and the residual
bytes after the last newline. -/
def extractMessages (buffer : List Nat) : List (List Nat) × List Nat :=
  extractGo [] buffer

/-- The per-connection `data` loop of `handleConnection` (lines 127-145)
applied to a sequence of chunks: each chunk is appended to the residual
buffer, complete frames are collected in order, and the new residual is
threaded to the next chunk. -/
def feedChunks (chunks : List (List Nat)) : List (List Nat) × List Nat :=
  chunks.foldl
    (fun acc c =>
      let r := extractMessages (acc.2 ++ c)
      (acc.1 ++ r.1, r.2))
    ([], [])

/-! ## Dispatcher validation (`src/handlers/tcp-handler.ts` lines 215-227) -/

/-- The JavaScript values relevant to `validateId`: numbers (including NaN as
a separate constructor), strings, booleans, null, undefined, and objects. -/
inductive JsValue where
  | num (x : ℚ)
  | nan
  | str (s : String)
  | boolean (b : Bool)
  | null
  | undef
  | obj
deriving DecidableEq, Repr

/-- JavaScript falsiness (`!value`): 0, NaN, the empty string, false, null
and undefined are falsy; objects are truthy. -/
def jsFalsy : JsValue → Bool
  | .num x => x == 0
  | .nan => true
  | .str s => s == ""
  | .boolean b => !b
  | .null => true
  | .undef => true
  | .obj => false

/-- `typeof value !== 'number'` is false exactly for numbers (NaN included). -/
def jsIsNumber : JsValue → Bool
  | .num _ => true
  | .nan => true
  | _ => false

/-- `Number.isNaN(value)`. -/
def jsIsNaN : JsValue → Bool
  | .nan => true
  | _ => false

/-- `value <= 0` under JS semantics for the values that reach this test:
true for non-positive numbers, false for NaN (any comparison with NaN is
false) and for non-numbers (which the earlier `typeof` test already caught). -/
def jsLeZero : JsValue → Bool
  | .num x => x ≤ 0
  | _ => false

/-- `capitalize`: `str.charAt(0).toUpperCase() + str.slice(1)`. -/
def capitalize (s : String) : String :=
  match s.data with
  | [] => ""
  | c :: cs => String.mk (c.toUpper :: cs)

/-- validateId (tcp-handler lines 215-227): throw a 400
`Error.Invalid<Field>` when the value is falsy, not a number, NaN, or ≤ 0. -/
def validateId (value : JsValue) (field : String) : Except StaffSvc.AppErr Unit :=
  if jsFalsy value || !jsIsNumber value || jsIsNaN value || jsLeZero value then
    .error { error := "Error.Invalid" ++ capitalize field,
             code := "Invalid " ++ field,
             path := [field], statusCode := 400 }
  else
    .ok ()

/-! ## Per-connection message processing (`src/app.ts` lines 196-278) -/

/-- Success envelope (shape only; its payload is opaque to this layer). -/
structure SuccessResp where
  message : String
  statusCode : Nat
deriving DecidableEq, Repr

/-- Error envelope assembled by `handleSocketError`. -/
structure ErrorResponse where
  statusCode : Nat
  error : String
  message : String
  messagePath : List String
deriving DecidableEq, Repr

/-- The errors `handleSocketError` discriminates on: AppError, RpcException,
SyntaxError (JSON.parse), the plain `Error('Payload too large')`, and
anything else. -/
inductive JsError where
  | app (e : StaffSvc.AppErr)
  | rpc (statusCode : Nat) (code : String)
  | syntaxError
  | payloadTooLarge
  | other
deriving DecidableEq, Repr

/-- handleSocketError (lines 239-278): translate a thrown error into the
error envelope; the default is a 500 `Error.Unexpected`. -/
def handleSocketError : JsError → ErrorResponse
  | .app e =>
      { statusCode := e.statusCode, error := e.error,
        message := e.code, messagePath := e.path }
  | .rpc statusCode code =>
      { statusCode := statusCode, error := code,
        message := code, messagePath := [] }
  | .syntaxError =>
      { statusCode := 400, error := "Error.InvalidJSON",
        message := "Invalid JSON format", messagePath := [] }
  | .payloadTooLarge =>
      { statusCode := 413, error := "Error.PayloadTooLarge",
        message := "Request payload exceeds maximum size", messagePath := [] }
  | .other =>
      { statusCode := 500, error := "Error.Unexpected",
        message := "Internal server error", messagePath := [] }

/-- Outcome of one frame: a success or an error envelope, paired with whether
JSON parsing of the frame was attempted. -/
structure FrameOutcome where
  resp : SuccessResp ⊕ ErrorResponse
  parseAttempted : Bool
deriving DecidableEq, Repr

/-- processMessage (lines 196-222): throw `Payload too large` before any
JSON parsing when the frame's byte length exceeds `MAX_PAYLOAD_SIZE`;
otherwise parse and dispatch (abstracted by `parseDispatch`, which models
`JSON.parse` + `handleTCPRequest` and may throw); every throw is translated
by `handleSocketError`. -/
def processMessage (parseDispatch : List Nat → Except JsError SuccessResp)
    (maxPayloadSize : Nat) (msg : List Nat) : FrameOutcome :=
  if msg.length > maxPayloadSize then
    { resp := .inr (handleSocketError .payloadTooLarge), parseAttempted := false }
  else
    match parseDispatch msg with
    | .ok r => { resp := .inl r, parseAttempted := true }
    | .error e => { resp := .inr (handleSocketError e), parseAttempted := true }

/-- Per-connection state: the residual buffer.  Neither `processMessage` nor
`handleSocketError` destroys the socket (`sendResponse` destroys it only when
`JSON.stringify` throws, which cannot happen for these envelopes), so a
`data` event leaves the connection open. -/
structure ConnState where
  buffer : List Nat
deriving DecidableEq, Repr

/-- The `data` handler of `handleConnection`: frame the buffered bytes and
process every complete frame in order, answering each one. -/
def onData (parseDispatch : List Nat → Except JsError SuccessResp)
    (maxPayloadSize : Nat) (conn : ConnState) (data : List Nat) :
    ConnState × List FrameOutcome :=
  let r := extractMessages (conn.buffer ++ data)
  ({ buffer := r.2 }, r.1.map (processMessage parseDispatch maxPayloadSize))

/-! ## Helper lemmas -/

/-- The store observable after an operation: the one carried by either
outcome. -/
def resultStore {α : Type} : TxResult α → Store
  | .ok (_, s2) => s2
  | .error (_, s2) => s2

/-- createInspectionReport throws only before its write. -/
theorem createInspectionReport_error_state (s : Store) (data : InspectionCreateInput)
    (now : Int) (newId : Nat) (e : AppErr) (s2 : Store)
    (h : createInspectionReport s data now newId = .error (e, s2)) : s2 = s := by
  unfold createInspectionReport at h
  split at h <;> simp_all

/-- updateInspectionReport throws only before its write. -/
theorem updateInspectionReport_error_state (s : Store) (id : Nat)
    (data : InspectionUpdateData) (now : Int) (e : AppErr) (s2 : Store)
    (h : updateInspectionReport s id data now = .error (e, s2)) : s2 = s := by
  unfold updateInspectionReport at h
  split at h
  · simp_all
  · split at h <;> simp_all

/-- The service-level UPDATE_INSPECTION_REPORT throws only before its write. -/
theorem serviceUpdateInspectionReport_error_state (s : Store) (id : Nat)
    (dto : UpdateInspectionReportDto) (now : Int) (e : AppErr) (s2 : Store)
    (h : serviceUpdateInspectionReport s id dto now = .error (e, s2)) : s2 = s := by
  unfold serviceUpdateInspectionReport at h
  split at h
  · exact updateInspectionReport_error_state _ _ _ _ _ _ h
  · simp_all

/-- createWorkLogWithStatusUpdate throws only before its writes. -/
theorem createWorkLogWithStatusUpdate_error_state (s : Store) (staffId bookingId : Nat)
    (now : Int) (newLogId : Nat) (e : AppErr) (s2 : Store)
    (h : createWorkLogWithStatusUpdate s staffId bookingId now newLogId = .error (e, s2)) :
    s2 = s := by
  unfold createWorkLogWithStatusUpdate at h
  split at h
  · simp_all
  · split at h
    · simp_all
    · split at h
      · simp_all
      · split at h
        · split at h
          · simp_all
          · split at h <;> simp_all
        · simp_all

/-- checkOutWorkLogByBookingId throws only before its writes. -/
theorem checkOutWorkLogByBookingId_error_state (s : Store) (bookingId : Nat)
    (now : Int) (e : AppErr) (s2 : Store)
    (h : checkOutWorkLogByBookingId s bookingId now = .error (e, s2)) : s2 = s := by
  unfold checkOutWorkLogByBookingId at h
  split at h
  · simp_all
  · split at h
    · simp_all
    · split at h
      · simp_all
      · split at h <;> simp_all

/-- find? over a map whose function preserves the predicate. -/
theorem find?_map_of_pred_invariant {α : Type} (p : α → Bool) (f : α → α)
    (l : List α) (hf : ∀ x, p (f x) = p x) :
    (l.map f).find? p = (l.find? p).map f := by
  induction l with
  | nil => rfl
  | cons a l ih =>
      by_cases h : p a = true
      · simp [List.find?, hf, h]
      · simp only [Bool.not_eq_true] at h
        simp [List.find?, hf, h, ih]

/-- pushFrame distributes over appending later frames. -/
theorem pushFrame_append (msg : List Nat) (ms1 ms2 : List (List Nat)) :
    pushFrame msg ms1 ++ ms2 = pushFrame msg (ms1 ++ ms2) := by
  unfold pushFrame
  split <;> simp

/-- Splitting a buffer in two and rescanning from the residual yields the
same frames and residual as scanning the whole buffer. -/
theorem extractGo_append (l : List Nat) : ∀ (cur c : List Nat),
    extractGo cur (l ++ c) =
      ((extractGo cur l).1 ++ (extractGo ((extractGo cur l).2).reverse c).1,
       (extractGo ((extractGo cur l).2).reverse c).2) := by
  induction l with
  | nil =>
      intro cur c
      simp [extractGo]
  | cons b bs ih =>
      intro cur c
      by_cases hb : b = 10
      · subst hb
        simp only [List.cons_append, extractGo, beq_self_eq_true, if_true, List.append_eq]
        rw [ih []]
        simp [← pushFrame_append]
      · have hb2 : (b == 10) = false := by simp [hb]
        simp only [List.cons_append, extractGo, hb2, Bool.false_eq_true, if_false]
        exact ih (b :: cur) c

/-- Scanning a newline-free buffer yields no frame and keeps every byte. -/
theorem extractGo_no_newline (l : List Nat) : ∀ cur : List Nat, (10 : Nat) ∉ l →
    extractGo cur l = ([], cur.reverse ++ l) := by
  induction l with
  | nil =>
      intro cur _
      simp [extractGo]
  | cons b bs ih =>
      intro cur h
      have hb : (b == 10) = false := by
        simp only [List.mem_cons, not_or] at h
        simp [Ne.symm h.1]
      simp only [extractGo, hb, Bool.false_eq_true, if_false]
      rw [ih (b :: cur) (by simp_all)]
      simp

/-- A newline-free prefix of the buffer only extends the current frame. -/
theorem extractGo_front_nonl (r : List Nat) : ∀ cur c : List Nat, (10 : Nat) ∉ r →
    extractGo cur (r ++ c) = extractGo (r.reverse ++ cur) c := by
  induction r with
  | nil =>
      intro cur c _
      simp
  | cons b bs ih =>
      intro cur c h
      have hb : (b == 10) = false := by
        simp only [List.mem_cons, not_or] at h
        simp [Ne.symm h.1]
      simp only [List.cons_append, extractGo, hb, Bool.false_eq_true, if_false, List.append_eq]
      rw [ih (b :: cur) c (by simp_all)]
      simp

/-- The residual buffer never contains a newline. -/
theorem extractGo_residual_no_newline (l : List Nat) : ∀ cur : List Nat,
    (10 : Nat) ∉ cur → (10 : Nat) ∉ (extractGo cur l).2 := by
  induction l with
  | nil =>
      intro cur h
      simpa [extractGo] using h
  | cons b bs ih =>
      intro cur h
      by_cases hb : b = 10
      · subst hb
        simpa [extractGo] using ih [] (by simp)
      · have hb2 : (b == 10) = false := by simp [hb]
        simp only [extractGo, hb2, Bool.false_eq_true, if_false]
        exact ih (b :: cur) (by simp_all [Ne.symm hb])

/-- Generalized chunk-feeding lemma: folding the connection's `data` handler
over a list of chunks, starting from any newline-free residual, equals one
scan of the concatenation. -/
theorem feedChunks_foldl (chunks : List (List Nat)) :
    ∀ (ms0 : List (List Nat)) (r0 : List Nat), (10 : Nat) ∉ r0 →
    chunks.foldl
      (fun acc c =>
        let r := extractMessages (acc.2 ++ c)
        (acc.1 ++ r.1, r.2)) (ms0, r0) =
      (ms0 ++ (extractGo r0.reverse chunks.flatten).1,
       (extractGo r0.reverse chunks.flatten).2) := by
  induction chunks with
  | nil =>
      intro ms0 r0 _
      simp [extractGo]
  | cons c cs ih =>
      intro ms0 r0 h0
      have hstep : extractMessages (r0 ++ c) = extractGo r0.reverse c := by
        rw [extractMessages, extractGo_front_nonl r0 [] c h0]
        simp
      have hres : (10 : Nat) ∉ (extractGo r0.reverse c).2 :=
        extractGo_residual_no_newline c r0.reverse (by simp [h0])
      simp only [List.foldl_cons, hstep]
      rw [ih (ms0 ++ (extractGo r0.reverse c).1) (extractGo r0.reverse c).2 hres]
      rw [show (c :: cs).flatten = c ++ cs.flatten from rfl]
      rw [extractGo_append c r0.reverse cs.flatten]
      simp [List.append_assoc]

/-- A buffer ending in a newline leaves an empty residual. -/
theorem extractGo_ends_newline (a : List Nat) : ∀ cur : List Nat,
    (extractGo cur (a ++ [10])).2 = [] := by
  induction a with
  | nil =>
      intro cur
      simp [extractGo]
  | cons b bs ih =>
      intro cur
      by_cases hb : b = 10
      · subst hb
        simp only [List.cons_append, extractGo, beq_self_eq_true, if_true]
        exact ih []
      · have hb2 : (b == 10) = false := by simp [hb]
        simp only [List.cons_append, extractGo, hb2, Bool.false_eq_true, if_false]
        exact ih (b :: cur)

/-! ## Claims -/

/-- Claim C7: feeding the framer any partition of a byte sequence into
chunks, threading the residual buffer through, yields exactly the frames
(and final residual) of scanning the whole sequence at once; the bytes after
the last newline stay in the residual; a blank frame is silently dropped. -/
theorem claim_C7_framing_chunk_invariance :
    (∀ chunks : List (List Nat), feedChunks chunks = extractMessages chunks.flatten) ∧
    (∀ a b : List Nat, (10 : Nat) ∉ b → (extractMessages (a ++ 10 :: b)).2 = b) ∧
    (∀ a : List Nat, extractMessages (10 :: a) = extractMessages a) := by
  refine ⟨fun chunks => ?_, fun a b hb => ?_, fun a => ?_⟩
  · unfold feedChunks
    rw [feedChunks_foldl chunks [] [] (by simp)]
    simp [extractMessages]
  · rw [extractMessages, show a ++ 10 :: b = (a ++ [10]) ++ b by simp]
    rw [extractGo_append (a ++ [10]) [] b]
    rw [extractGo_ends_newline a []]
    simp only [List.reverse_nil]
    rw [extractGo_no_newline b [] hb]
    simp
  · simp only [extractMessages, extractGo, beq_self_eq_true, if_true,
      List.reverse_nil]
    rw [show pushFrame [] (extractGo [] a).1 = (extractGo [] a).1 from by
      simp [pushFrame, trimBytes]]

/-- Witness for C7 at concrete inputs: the chunked scan of `"HI\nJ"` split
after the first byte, the residual after `"H\nM"`, and a leading blank
frame. -/
theorem claim_C7_framing_chunk_invariance_witness :
    feedChunks [[72], [73, 10, 74]] = extractMessages [72, 73, 10, 74] ∧
    ((10 : Nat) ∉ [77] ∧ (extractMessages ([72] ++ 10 :: [77])).2 = [77]) ∧
    extractMessages (10 :: [72]) = extractMessages [72] :=
  ⟨claim_C7_framing_chunk_invariance.1 [[72], [73, 10, 74]],
   ⟨by decide, claim_C7_framing_chunk_invariance.2.1 [72] [77] (by decide)⟩,
   claim_C7_framing_chunk_invariance.2.2 [72]⟩

/-- Two newline-terminated, already-trimmed, non-blank frames extract to
exactly those two frames with an empty residual. -/
theorem extractMessages_two_frames (f1 f2 : List Nat)
    (h1 : (10 : Nat) ∉ f1) (h2 : (10 : Nat) ∉ f2)
    (t1 : trimBytes f1 = f1) (t2 : trimBytes f2 = f2)
    (n1 : f1 ≠ []) (n2 : f2 ≠ []) :
    extractMessages (f1 ++ 10 :: (f2 ++ [10])) = ([f1, f2], []) := by
  rw [extractMessages, extractGo_front_nonl f1 [] _ h1, List.append_nil]
  simp only [extractGo, beq_self_eq_true, if_true, List.reverse_reverse]
  rw [extractGo_front_nonl f2 [] _ h2, List.append_nil]
  simp only [extractGo, beq_self_eq_true, if_true, List.reverse_nil,
    List.reverse_reverse]
  rw [show pushFrame f2 [] = [f2] from by simp [pushFrame, t2, n2]]
  rw [show pushFrame f1 [f2] = [f1, f2] from by simp [pushFrame, t1, n1]]

/-- Claim C8: a complete frame longer than the configured maximum payload
size is answered with the 413 `Error.PayloadTooLarge` envelope without JSON
parsing being attempted, the connection stays open (the residual state is a
live connection), and a following in-limit frame on the same connection is
parsed, dispatched and answered. -/
theorem claim_C8_payload_too_large
    (parseDispatch : List Nat → Except JsError SuccessResp) (maxPayloadSize : Nat)
    (f1 f2 : List Nat) (r2 : SuccessResp)
    (h1 : (10 : Nat) ∉ f1) (h2 : (10 : Nat) ∉ f2)
    (t1 : trimBytes f1 = f1) (t2 : trimBytes f2 = f2)
    (n1 : f1 ≠ []) (n2 : f2 ≠ [])
    (hbig : f1.length > maxPayloadSize) (hfit : f2.length ≤ maxPayloadSize)
    (hok : parseDispatch f2 = .ok r2) :
    onData parseDispatch maxPayloadSize { buffer := [] } (f1 ++ 10 :: (f2 ++ [10])) =
      ({ buffer := [] },
       [{ resp := .inr { statusCode := 413, error := "Error.PayloadTooLarge",
                         message := "Request payload exceeds maximum size",
                         messagePath := [] },
          parseAttempted := false },
        { resp := .inl r2, parseAttempted := true }]) := by
  unfold onData
  rw [show ({ buffer := [] } : ConnState).buffer ++ (f1 ++ 10 :: (f2 ++ [10])) =
        f1 ++ 10 :: (f2 ++ [10]) from by simp]
  rw [extractMessages_two_frames f1 f2 h1 h2 t1 t2 n1 n2]
  simp only [List.map_cons, List.map_nil]
  rw [show processMessage parseDispatch maxPayloadSize f1 =
        { resp := .inr { statusCode := 413, error := "Error.PayloadTooLarge",
                         message := "Request payload exceeds maximum size",
                         messagePath := [] },
          parseAttempted := false } from by
    simp [processMessage, hbig, handleSocketError]]
  rw [show processMessage parseDispatch maxPayloadSize f2 =
        { resp := .inl r2, parseAttempted := true } from by
    simp [processMessage, Nat.not_lt.mpr hfit, hok]]

/-- Witness for C8: with a maximum of 2 bytes, the frame `"AAA"` is answered
413 without parsing and the next frame `"B"` still gets its success
response. -/
theorem claim_C8_payload_too_large_witness :
    onData (fun _ => .ok { message := "ok", statusCode := 200 }) 2
        { buffer := [] } ([65, 65, 65] ++ 10 :: ([66] ++ [10])) =
      ({ buffer := [] },
       [{ resp := .inr { statusCode := 413, error := "Error.PayloadTooLarge",
                         message := "Request payload exceeds maximum size",
                         messagePath := [] },
          parseAttempted := false },
        { resp := .inl { message := "ok", statusCode := 200 },
          parseAttempted := true }]) :=
  claim_C8_payload_too_large (fun _ => .ok { message := "ok", statusCode := 200 })
    2 [65, 65, 65] [66] { message := "ok", statusCode := 200 }
    (by decide) (by decide) (by decide) (by decide) (by decide) (by decide)
    (by decide) (by decide) rfl

/-! Concrete fixtures used by witnesses and counterexamples. -/

/-- An empty store. -/
def emptyStore : Store :=
  { bookings := [], serviceRequests := [], reports := [], workLogs := [] }

/-- A PENDING booking linked to ServiceRequest 3 and staff 7. -/
def wBooking : Booking :=
  { id := 1, status := .PENDING, staffId := some 7, serviceRequestId := some 3 }

/-- A ServiceRequest with preferred date at epoch 0. -/
def wSr : ServiceRequest := { id := 3, preferredDate := 0, status := .PENDING }

/-- An inspection report for booking 1 created at epoch 0. -/
def wReport : InspectionReport :=
  { id := 4, bookingId := 1, staffId := 7, estimatedTime := none, note := none,
    images := [], createdAt := 0 }

/-- An open WorkLog (checked in at 0, not checked out) for (staff 7, booking 1). -/
def wOpenLog : WorkLog :=
  { id := 1, staffId := 7, bookingId := 1, checkIn := some 0, checkOut := none,
    updatedAt := 0 }

/-- A closed WorkLog (checked in at 0, checked out at 100) for
(staff 7, booking 1). -/
def wClosedLog : WorkLog :=
  { id := 1, staffId := 7, bookingId := 1, checkIn := some 0, checkOut := some 100,
    updatedAt := 100 }

/-- A store with booking 1, ServiceRequest 3 and report 4, no work logs. -/
def stReport : Store :=
  { bookings := [wBooking], serviceRequests := [wSr], reports := [wReport],
    workLogs := [] }

/-- Claim C1: whenever one of the four workflow operations
(CreateInspectionReport, UpdateInspectionReport, CheckIn, CheckOut) fails
with any error, the store carried by the error — the state observable after
the call — equals the store before the call: a WorkLog created without its
ServiceRequest or Booking update is never observable. -/
theorem claim_C1_atomic_failure :
    (∀ (s : Store) (data : InspectionCreateInput) (now : Int) (newId : Nat)
        (e : AppErr) (s2 : Store),
        createInspectionReport s data now newId = .error (e, s2) → s2 = s) ∧
    (∀ (s : Store) (id : Nat) (dto : UpdateInspectionReportDto) (now : Int)
        (e : AppErr) (s2 : Store),
        serviceUpdateInspectionReport s id dto now = .error (e, s2) → s2 = s) ∧
    (∀ (s : Store) (staffId bookingId : Nat) (now : Int) (newLogId : Nat)
        (e : AppErr) (s2 : Store),
        createWorkLogWithStatusUpdate s staffId bookingId now newLogId =
          .error (e, s2) → s2 = s) ∧
    (∀ (s : Store) (bookingId : Nat) (now : Int) (e : AppErr) (s2 : Store),
        checkOutWorkLogByBookingId s bookingId now = .error (e, s2) → s2 = s) :=
  ⟨createInspectionReport_error_state,
   serviceUpdateInspectionReport_error_state,
   createWorkLogWithStatusUpdate_error_state,
   checkOutWorkLogByBookingId_error_state⟩

/-- Witness for C1: each operation hit at a concrete failing input, with the
carried store equal to the initial one. -/
theorem claim_C1_atomic_failure_witness :
    (createInspectionReport stReport
        { bookingId := 1, staffId := 7, estimatedTime := none, note := none,
          images := [] } 0 9 =
      .error ({ error := "Inspection report already exists for this booking",
                code := "Error.InspectionReportExists",
                path := ["bookingId"], statusCode := 400 }, stReport) ∧
      stReport = stReport) ∧
    (serviceUpdateInspectionReport stReport 4
        { note := none, images := none, estimatedTime := none } 0 =
      .error ({ error := "No valid update data provided",
                code := "Error.NoValidUpdateData",
                path := ["note", "images", "estimatedTime"], statusCode := 400 },
              stReport) ∧
      stReport = stReport) ∧
    (createWorkLogWithStatusUpdate emptyStore 7 1 0 2 =
      .error ({ error := "Booking not found", code := "Error.BookingNotFound",
                path := ["bookingId"], statusCode := 404 }, emptyStore) ∧
      emptyStore = emptyStore) ∧
    (checkOutWorkLogByBookingId emptyStore 1 0 =
      .error ({ error := "Work log not found", code := "NotFound",
                path := ["bookingId"], statusCode := 404 }, emptyStore) ∧
      emptyStore = emptyStore) :=
  by
  refine ⟨⟨rfl, ?_⟩, ⟨rfl, ?_⟩, ⟨rfl, ?_⟩, ⟨rfl, ?_⟩⟩
  · exact claim_C1_atomic_failure.1 stReport
      { bookingId := 1, staffId := 7, estimatedTime := none, note := none,
        images := [] } 0 9
      { error := "Inspection report already exists for this booking",
        code := "Error.InspectionReportExists",
        path := ["bookingId"], statusCode := 400 } stReport rfl
  · exact claim_C1_atomic_failure.2.1 stReport 4
      { note := none, images := none, estimatedTime := none } 0
      { error := "No valid update data provided",
        code := "Error.NoValidUpdateData",
        path := ["note", "images", "estimatedTime"], statusCode := 400 }
      stReport rfl
  · exact claim_C1_atomic_failure.2.2.1 emptyStore 7 1 0 2
      { error := "Booking not found", code := "Error.BookingNotFound",
        path := ["bookingId"], statusCode := 404 } emptyStore rfl
  · exact claim_C1_atomic_failure.2.2.2 emptyStore 1 0
      { error := "Work log not found", code := "NotFound",
        path := ["bookingId"], statusCode := 404 } emptyStore rfl

/-- The per-booking uniqueness invariant for inspection reports. -/
def ReportsUnique (s : Store) : Prop :=
  s.reports.Pairwise (fun a b => a.bookingId ≠ b.bookingId)

/-- Claim C5: at most one InspectionReport ever exists per booking:
creating a report for a booking that already has one always fails with
`Error.InspectionReportExists` leaving the store unchanged, and the
uniqueness invariant is preserved by all four workflow operations (on the
store observable after the call, whatever the outcome). -/
theorem claim_C5_report_uniqueness :
    (∀ (s : Store) (data : InspectionCreateInput) (now : Int) (newId : Nat)
        (r : InspectionReport),
        r ∈ s.reports → r.bookingId = data.bookingId →
        ∃ e : AppErr, createInspectionReport s data now newId = .error (e, s) ∧
          e.code = "Error.InspectionReportExists") ∧
    (∀ (s : Store) (data : InspectionCreateInput) (now : Int) (newId : Nat),
        ReportsUnique s →
        ReportsUnique (resultStore (createInspectionReport s data now newId))) ∧
    (∀ (s : Store) (id : Nat) (dto : UpdateInspectionReportDto) (now : Int),
        ReportsUnique s →
        ReportsUnique (resultStore (serviceUpdateInspectionReport s id dto now))) ∧
    (∀ (s : Store) (staffId bookingId : Nat) (now : Int) (newLogId : Nat),
        ReportsUnique s →
        ReportsUnique (resultStore
          (createWorkLogWithStatusUpdate s staffId bookingId now newLogId))) ∧
    (∀ (s : Store) (bookingId : Nat) (now : Int),
        ReportsUnique s →
        ReportsUnique (resultStore (checkOutWorkLogByBookingId s bookingId now))) := by
  refine ⟨?_, ?_, ?_, ?_, ?_⟩
  · intro s data now newId r hr hrb
    have hsome : (s.reports.find? (fun x => x.bookingId == data.bookingId)).isSome :=
      List.find?_isSome.mpr ⟨r, hr, by simp [hrb]⟩
    obtain ⟨w, hw⟩ := Option.isSome_iff_exists.mp hsome
    unfold createInspectionReport
    rw [hw]
    exact ⟨_, rfl, rfl⟩
  · intro s data now newId hu
    unfold createInspectionReport
    cases hfind : s.reports.find? (fun x => x.bookingId == data.bookingId) with
    | some w => exact hu
    | none =>
        have hnone := List.find?_eq_none.mp hfind
        simp only [resultStore, ReportsUnique] at hu ⊢
        rw [List.pairwise_append]
        refine ⟨hu, List.pairwise_singleton _ _, ?_⟩
        intro a ha b hb
        simp only [List.mem_singleton] at hb
        subst hb
        have := hnone a ha
        simp_all
  · intro s id dto now hu
    unfold serviceUpdateInspectionReport updateInspectionReport
    split
    · split
      · simpa [resultStore] using hu
      · split
        · simpa [resultStore] using hu
        · simp only [resultStore, ReportsUnique] at hu ⊢
          rw [List.pairwise_map]
          refine hu.imp ?_
          intro a b hab
          have hpa : ∀ x : InspectionReport,
              (if x.id = id then applyInspectionUpdate x (buildUpdateData dto)
               else x).bookingId = x.bookingId := by
            intro x
            split <;> rfl
          simpa [hpa] using hab
    · simpa [resultStore] using hu
  · intro s staffId bookingId now newLogId hu
    unfold createWorkLogWithStatusUpdate
    repeat' split
    all_goals simpa [resultStore, ReportsUnique] using hu
  · intro s bookingId now hu
    unfold checkOutWorkLogByBookingId
    repeat' split
    all_goals simpa [resultStore, ReportsUnique] using hu

/-- Witness for C5: the duplicate rejection and every preservation conjunct
evaluated on the concrete report store. -/
theorem claim_C5_report_uniqueness_witness :
    (wReport ∈ stReport.reports ∧ wReport.bookingId = 1 ∧
      (∃ e : AppErr,
        createInspectionReport stReport
            { bookingId := 1, staffId := 7, estimatedTime := none, note := none,
              images := [] } 0 9 = .error (e, stReport) ∧
          e.code = "Error.InspectionReportExists")) ∧
    ReportsUnique stReport ∧
    ReportsUnique (resultStore (createInspectionReport stReport
      { bookingId := 2, staffId := 7, estimatedTime := none, note := none,
        images := [] } 0 9)) ∧
    ReportsUnique (resultStore (serviceUpdateInspectionReport stReport 4
      { note := some "n", images := none, estimatedTime := none } 0)) ∧
    ReportsUnique (resultStore (createWorkLogWithStatusUpdate stReport 7 1 0 2)) ∧
    ReportsUnique (resultStore (checkOutWorkLogByBookingId stReport 1 0)) := by
  have hu : ReportsUnique stReport := by
    simp [ReportsUnique, stReport]
  refine ⟨⟨by simp [stReport], rfl,
    claim_C5_report_uniqueness.1 stReport _ 0 9 wReport (by simp [stReport]) rfl⟩,
    hu,
    claim_C5_report_uniqueness.2.1 stReport _ 0 9 hu,
    claim_C5_report_uniqueness.2.2.1 stReport 4 _ 0 hu,
    claim_C5_report_uniqueness.2.2.2.1 stReport 7 1 0 2 hu,
    claim_C5_report_uniqueness.2.2.2.2 stReport 1 0 hu⟩

/-- A store whose only WorkLog for (staff 7, booking 1) is already checked
out. -/
def stClosedLog : Store :=
  { bookings := [wBooking], serviceRequests := [wSr], reports := [],
    workLogs := [wClosedLog] }

/-- Counterexample to claim C2 as stated: in `stClosedLog` no open WorkLog
for (staff 7, booking 1) exists (the only one is checked out) and every
other check-in precondition holds (shown by the successful run on the same
store without the log), yet CheckIn fails with `Error.AlreadyCheckedIn` —
the code's duplicate check does not filter on `checkOut: null`. -/
theorem claim_C2_counterexample :
    stClosedLog.workLogs.all
      (fun w => !(w.bookingId == 1 && w.staffId == 7 && w.checkOut == none)) = true ∧
    (createWorkLogWithStatusUpdate
      { stClosedLog with workLogs := [] } 7 1 0 2).isOk = true ∧
    createWorkLogWithStatusUpdate stClosedLog 7 1 0 2 =
      .error ({ error := "Staff already checked in for this booking",
                code := "Error.AlreadyCheckedIn",
                path := ["bookingId"], statusCode := 400 }, stClosedLog) :=
  ⟨by decide, by decide, rfl⟩

/-- Claim C2 (amended): for a booking that exists and is neither COMPLETED
nor CANCELLED, CheckIn fails with `Error.AlreadyCheckedIn` if and only if
any WorkLog for the (staffId, bookingId) pair exists — open or already
checked out; a checked-out prior WorkLog still blocks a new check-in. -/
theorem claim_C2_already_checked_in_amended
    (s : Store) (staffId bookingId : Nat) (now : Int) (newLogId : Nat)
    (b : Booking)
    (hb : s.bookings.find? (fun x => x.id == bookingId) = some b)
    (hst : ¬(b.status = .COMPLETED ∨ b.status = .CANCELLED)) :
    (∃ (e : AppErr) (s2 : Store),
        createWorkLogWithStatusUpdate s staffId bookingId now newLogId =
          .error (e, s2) ∧ e.code = "Error.AlreadyCheckedIn") ↔
      ∃ w ∈ s.workLogs, w.bookingId = bookingId ∧ w.staffId = staffId := by
  unfold createWorkLogWithStatusUpdate
  simp only [hb]
  rw [if_neg hst]
  cases hlog : s.workLogs.find?
      (fun w => w.bookingId == bookingId && w.staffId == staffId) with
  | some w =>
      refine iff_of_true ⟨_, _, rfl, rfl⟩ ?_
      have hmem := List.mem_of_find?_eq_some hlog
      have hp := List.find?_some hlog
      simp only [Bool.and_eq_true, beq_iff_eq] at hp
      exact ⟨w, hmem, hp.1, hp.2⟩
  | none =>
      refine iff_of_false ?_ ?_
      · rintro ⟨e, s2, heq, hcode⟩
        split at heq
        · simp_all
        · split at heq
          · split at heq
            · rw [Except.error.injEq, Prod.mk.injEq] at heq
              obtain ⟨he, -⟩ := heq
              subst he
              exact absurd hcode (by decide)
            · split at heq
              · rw [Except.error.injEq, Prod.mk.injEq] at heq
                obtain ⟨he, -⟩ := heq
                subst he
                exact absurd hcode (by decide)
              · exact absurd heq (by simp)
          · rw [Except.error.injEq, Prod.mk.injEq] at heq
            obtain ⟨he, -⟩ := heq
            subst he
            exact absurd hcode (by decide)
      · rintro ⟨w, hw, hwb, hws⟩
        have := List.find?_eq_none.mp hlog w hw
        simp_all

/-- Witness for the amended C2 on the concrete closed-log store. -/
theorem claim_C2_already_checked_in_amended_witness :
    stClosedLog.bookings.find? (fun x => x.id == 1) = some wBooking ∧
    ¬(wBooking.status = .COMPLETED ∨ wBooking.status = .CANCELLED) ∧
    ((∃ (e : AppErr) (s2 : Store),
        createWorkLogWithStatusUpdate stClosedLog 7 1 0 2 = .error (e, s2) ∧
        e.code = "Error.AlreadyCheckedIn") ↔
      ∃ w ∈ stClosedLog.workLogs, w.bookingId = 1 ∧ w.staffId = 7) :=
  ⟨rfl, by decide,
   claim_C2_already_checked_in_amended stClosedLog 7 1 0 2 wBooking rfl (by decide)⟩

/-- Same-day bound: a millisecond difference strictly below one day keeps
the absolute floored day difference at most 1, whichever side of the
preferred date `now` falls on. -/
theorem calculateDaysDifference_le_one (a b : Int) (h : |a - b| < 86400000) :
    calculateDaysDifference a b ≤ 1 := by
  unfold calculateDaysDifference
  rw [show ((1000 * 60 * 60 * 24 : ℚ)) = 86400000 by norm_num]
  rw [abs_le]
  rw [abs_lt] at h
  have h1 : (-86400000 : ℚ) < (a : ℚ) - (b : ℚ) := by exact_mod_cast h.1
  have h2 : (a : ℚ) - (b : ℚ) < 86400000 := by exact_mod_cast h.2
  constructor
  · rw [Int.le_floor]
    rw [le_div_iff₀ (by norm_num)]
    push_cast
    linarith
  · have hlt : ⌊((a - b : ℤ) : ℚ) / 86400000⌋ < 2 := by
      rw [Int.floor_lt]
      rw [div_lt_iff₀ (by norm_num)]
      push_cast
      linarith
    omega

/-- Claim C3: when the booking exists with an acceptable status, no prior
WorkLog blocks the pair, and a ServiceRequest with its preferred date is
joined, CheckIn is rejected with `Error.DateMismatchPreferredDate` exactly
when the absolute floored day difference between the single sampled `now`
and the preferred date exceeds MAX_DATE_DIFF_DAYS = 1; any `now` within one
day of the preferred date (in particular any same-day `now`, before or after
it) is inside the window. -/
theorem claim_C3_preferred_date_window
    (s : Store) (staffId bookingId : Nat) (now : Int) (newLogId : Nat)
    (b : Booking) (sr : ServiceRequest)
    (hb : s.bookings.find? (fun x => x.id == bookingId) = some b)
    (hst : ¬(b.status = .COMPLETED ∨ b.status = .CANCELLED))
    (hlog : s.workLogs.find?
      (fun w => w.bookingId == bookingId && w.staffId == staffId) = none)
    (hsr : bookingServiceRequest s b = some sr) :
    ((∃ (e : AppErr) (s2 : Store),
        createWorkLogWithStatusUpdate s staffId bookingId now newLogId =
          .error (e, s2) ∧ e.code = "Error.DateMismatchPreferredDate") ↔
      calculateDaysDifference now sr.preferredDate > MAX_DATE_DIFF_DAYS) ∧
    (|now - sr.preferredDate| < 86400000 →
      calculateDaysDifference now sr.preferredDate ≤ MAX_DATE_DIFF_DAYS) := by
  constructor
  · unfold createWorkLogWithStatusUpdate
    simp only [hb]
    rw [if_neg hst]
    simp only [hlog, hsr]
    by_cases hgt : calculateDaysDifferenceInt now sr.preferredDate > MAX_DATE_DIFF_DAYS
    · rw [if_pos hgt]
      refine iff_of_true ⟨_, _, rfl, rfl⟩ ?_
      rwa [← calculateDaysDifferenceInt_eq]
    · rw [if_neg hgt]
      refine iff_of_false ?_ ?_
      · rintro ⟨e, s2, heq, hcode⟩
        split at heq
        · rw [Except.error.injEq, Prod.mk.injEq] at heq
          obtain ⟨he, -⟩ := heq
          subst he
          exact absurd hcode (by decide)
        · exact absurd heq (by simp)
      · rw [← calculateDaysDifferenceInt_eq]
        exact hgt
  · intro h
    rw [show MAX_DATE_DIFF_DAYS = 1 from rfl]
    exact calculateDaysDifference_le_one now sr.preferredDate h

/-- A store ready for check-in: booking 1 with ServiceRequest 3, no logs. -/
def stCheckIn : Store :=
  { bookings := [wBooking], serviceRequests := [wSr], reports := [],
    workLogs := [] }

/-- Witness for C3 three days after the preferred date. -/
theorem claim_C3_preferred_date_window_witness :
    stCheckIn.bookings.find? (fun x => x.id == 1) = some wBooking ∧
    ¬(wBooking.status = .COMPLETED ∨ wBooking.status = .CANCELLED) ∧
    stCheckIn.workLogs.find? (fun w => w.bookingId == 1 && w.staffId == 7) = none ∧
    bookingServiceRequest stCheckIn wBooking = some wSr ∧
    (((∃ (e : AppErr) (s2 : Store),
        createWorkLogWithStatusUpdate stCheckIn 7 1 (3 * 86400000) 2 =
          .error (e, s2) ∧ e.code = "Error.DateMismatchPreferredDate") ↔
      calculateDaysDifference (3 * 86400000) wSr.preferredDate > MAX_DATE_DIFF_DAYS) ∧
     (|(3 * 86400000 : ℤ) - wSr.preferredDate| < 86400000 →
      calculateDaysDifference (3 * 86400000) wSr.preferredDate ≤ MAX_DATE_DIFF_DAYS)) :=
  ⟨rfl, by decide, rfl, rfl,
   claim_C3_preferred_date_window stCheckIn 7 1 (3 * 86400000) 2 wBooking wSr
     rfl (by decide) rfl rfl⟩

/-- Claim C4: for an existing report and an update request carrying at least
one valid field, UpdateInspectionReport (service layer plus repository)
succeeds — applying the update — whenever `now − createdAt` is at most 24
hours (24h sharp included), and is rejected with `Error.ReportUpdateTooLate`
with the store unchanged whenever it is strictly more than 24 hours. -/
theorem claim_C4_update_window
    (s : Store) (id : Nat) (dto : UpdateInspectionReportDto) (now : Int)
    (r : InspectionReport)
    (hfind : s.reports.find? (fun x => x.id == id) = some r)
    (hvalid : hasValidUpdates dto = true) :
    (calculateHoursDifference r.createdAt now ≤ MAX_UPDATE_HOURS →
      serviceUpdateInspectionReport s id dto now =
        .ok (applyInspectionUpdate r (buildUpdateData dto),
             { s with reports := s.reports.map (fun x =>
                 if x.id == id then applyInspectionUpdate x (buildUpdateData dto)
                 else x) })) ∧
    (calculateHoursDifference r.createdAt now > MAX_UPDATE_HOURS →
      serviceUpdateInspectionReport s id dto now =
        .error ({ error := "Inspection report can no longer be updated after 24 hours",
                  code := "Error.ReportUpdateTooLate", path := ["id"],
                  statusCode := 400 }, s)) := by
  have hcast : ((24 : ℤ) : ℚ) = MAX_UPDATE_HOURS := by
    rw [MAX_UPDATE_HOURS]
    norm_num
  have hbridge := hoursGtBound_iff r.createdAt now 24
  rw [hcast] at hbridge
  constructor
  · intro hle
    have hfalse : hoursGtBound r.createdAt now 24 = false := by
      rw [← Bool.not_eq_true, hbridge]
      exact not_lt.mpr hle
    unfold serviceUpdateInspectionReport updateInspectionReport
    rw [if_pos hvalid]
    simp only [hfind, hfalse, Bool.false_eq_true, if_false]
  · intro hgt
    have htrue : hoursGtBound r.createdAt now 24 = true := hbridge.mpr hgt
    unfold serviceUpdateInspectionReport updateInspectionReport
    rw [if_pos hvalid]
    simp only [hfind, htrue, if_true]

/-- Witness for C4 on the concrete report store (update carrying a note). -/
theorem claim_C4_update_window_witness :
    stReport.reports.find? (fun x => x.id == 4) = some wReport ∧
    hasValidUpdates { note := some "x", images := none, estimatedTime := none } = true ∧
    ((calculateHoursDifference wReport.createdAt 86400000 ≤ MAX_UPDATE_HOURS →
      serviceUpdateInspectionReport stReport 4
          { note := some "x", images := none, estimatedTime := none } 86400000 =
        .ok (applyInspectionUpdate wReport
              (buildUpdateData { note := some "x", images := none, estimatedTime := none }),
             { stReport with reports := stReport.reports.map (fun x =>
                 if x.id == 4 then
                   applyInspectionUpdate x
                     (buildUpdateData { note := some "x", images := none, estimatedTime := none })
                 else x) })) ∧
     (calculateHoursDifference wReport.createdAt 86400000 > MAX_UPDATE_HOURS →
      serviceUpdateInspectionReport stReport 4
          { note := some "x", images := none, estimatedTime := none } 86400000 =
        .error ({ error := "Inspection report can no longer be updated after 24 hours",
                  code := "Error.ReportUpdateTooLate", path := ["id"],
                  statusCode := 400 }, stReport))) :=
  ⟨rfl, rfl,
   claim_C4_update_window stReport 4
     { note := some "x", images := none, estimatedTime := none } 86400000 wReport
     rfl rfl⟩

/-- The store after a successful check-out: `checkOut`/`updatedAt` set on the
found WorkLog, the booking flipped to COMPLETED. -/
def checkedOutStore (s : Store) (bookingId : Nat) (now : Int) (wl : WorkLog) :
    Store :=
  { s with
    workLogs := s.workLogs.map (fun w =>
      if w.id == wl.id then { w with checkOut := some now, updatedAt := now }
      else w),
    bookings := s.bookings.map (fun b =>
      if b.id == bookingId then { b with status := .COMPLETED } else b) }

/-- Claim C6 (amended): when the WorkLog the store yields first for the
booking is open (checkIn set, checkOut null) and at most 24 hours old,
CheckOut succeeds, setting `checkOut := now` on that WorkLog and the
booking's status to COMPLETED; a second CheckOut for the same booking, run
on the resulting store at any later time, fails with
`Error.AlreadyCheckedOut`. -/
theorem claim_C6_checkout_amended
    (s : Store) (bookingId : Nat) (now now2 : Int) (wl : WorkLog) (t : Int)
    (hfind : s.workLogs.find? (fun w => w.bookingId == bookingId) = some wl)
    (hopen : wl.checkOut = none)
    (hin : wl.checkIn = some t)
    (hwithin : calculateHoursDifference t now ≤ MAX_CHECKOUT_HOURS) :
    checkOutWorkLogByBookingId s bookingId now =
      .ok ({ message := "Check-out successful", bookingId := bookingId,
             updatedAt := now },
           checkedOutStore s bookingId now wl) ∧
    checkOutWorkLogByBookingId (checkedOutStore s bookingId now wl) bookingId now2 =
      .error ({ error := "Already checked out", code := "Error.AlreadyCheckedOut",
                path := ["bookingId"], statusCode := 400 },
              checkedOutStore s bookingId now wl) := by
  have hcast : ((24 : ℤ) : ℚ) = MAX_CHECKOUT_HOURS := by
    rw [MAX_CHECKOUT_HOURS]
    norm_num
  have hbridge := hoursGtBound_iff t now 24
  rw [hcast] at hbridge
  have hfalse : hoursGtBound t now 24 = false := by
    rw [← Bool.not_eq_true, hbridge]
    exact not_lt.mpr hwithin
  have hfind2 : (checkedOutStore s bookingId now wl).workLogs.find?
      (fun w => w.bookingId == bookingId) =
      some { wl with checkOut := some now, updatedAt := now } := by
    unfold checkedOutStore
    rw [find?_map_of_pred_invariant (fun w => w.bookingId == bookingId)
      (fun w => if w.id == wl.id then { w with checkOut := some now, updatedAt := now }
                else w) s.workLogs (by intro x; dsimp only; split <;> rfl)]
    rw [hfind]
    simp
  constructor
  · unfold checkOutWorkLogByBookingId
    simp only [hfind, hopen, Option.isSome_none, Bool.false_eq_true, if_false, hin,
      hfalse]
    rfl
  · unfold checkOutWorkLogByBookingId
    simp only [hfind2, Option.isSome_some, if_true]

/-- A second open log for booking 1 (staff 8), stored after a closed one. -/
def wOpenLog2 : WorkLog :=
  { id := 2, staffId := 8, bookingId := 1, checkIn := some 1000, checkOut := none,
    updatedAt := 1000 }

/-- A store holding a closed WorkLog and then an open WorkLog, both for
booking 1 — reachable by two staff members checking in and the first one
checking out. -/
def stTwoLogs : Store :=
  { bookings := [wBooking], serviceRequests := [wSr], reports := [],
    workLogs := [wClosedLog, wOpenLog2] }

/-- Counterexample to claim C6 as stated: `stTwoLogs` contains an open
WorkLog for booking 1 (checked in at 1000, not checked out, well within 24
hours of `now = 2000`), yet CheckOut does not succeed — `findFirst` returns
the earlier, closed log and the call fails with `Error.AlreadyCheckedOut`. -/
theorem claim_C6_counterexample :
    wOpenLog2 ∈ stTwoLogs.workLogs ∧
    wOpenLog2.bookingId = 1 ∧
    wOpenLog2.checkOut = none ∧
    wOpenLog2.checkIn = some 1000 ∧
    calculateHoursDifference 1000 2000 ≤ MAX_CHECKOUT_HOURS ∧
    checkOutWorkLogByBookingId stTwoLogs 1 2000 =
      .error ({ error := "Already checked out", code := "Error.AlreadyCheckedOut",
                path := ["bookingId"], statusCode := 400 }, stTwoLogs) :=
  ⟨by decide, rfl, rfl, rfl,
   by norm_num [calculateHoursDifference, MAX_CHECKOUT_HOURS], rfl⟩

/-- A store with a single open WorkLog for booking 1. -/
def stOpenLog : Store :=
  { bookings := [wBooking], serviceRequests := [wSr], reports := [],
    workLogs := [wOpenLog] }

/-- Witness for the amended C6: checking out the open log of `stOpenLog` at
time 500 succeeds and a repeated checkout at 900 fails AlreadyCheckedOut. -/
theorem claim_C6_checkout_amended_witness :
    stOpenLog.workLogs.find? (fun w => w.bookingId == 1) = some wOpenLog ∧
    wOpenLog.checkOut = none ∧
    wOpenLog.checkIn = some 0 ∧
    calculateHoursDifference 0 500 ≤ MAX_CHECKOUT_HOURS ∧
    (checkOutWorkLogByBookingId stOpenLog 1 500 =
      .ok ({ message := "Check-out successful", bookingId := 1, updatedAt := 500 },
           checkedOutStore stOpenLog 1 500 wOpenLog) ∧
     checkOutWorkLogByBookingId (checkedOutStore stOpenLog 1 500 wOpenLog) 1 900 =
      .error ({ error := "Already checked out", code := "Error.AlreadyCheckedOut",
                path := ["bookingId"], statusCode := 400 },
              checkedOutStore stOpenLog 1 500 wOpenLog)) :=
  ⟨rfl, rfl, rfl, by norm_num [calculateHoursDifference, MAX_CHECKOUT_HOURS],
   claim_C6_checkout_amended stOpenLog 1 500 900 wOpenLog 0 rfl rfl rfl
     (by norm_num [calculateHoursDifference, MAX_CHECKOUT_HOURS])⟩

/-- Counterexample to claim C9 as stated: validateId accepts the positive
non-integer number 5.5 (= 11/2, whose denominator is 2, so it is not an
integer), although the claim says every non-positive-integer value is
rejected with a 400 validation error. -/
theorem claim_C9_counterexample :
    validateId (.num ⟨11, 2, by norm_num, by norm_num⟩) "staffId" = .ok () ∧
    (⟨11, 2, by norm_num, by norm_num⟩ : ℚ).den ≠ 1 :=
  ⟨rfl, by decide⟩

/-- Claim C9 (amended): validateId passes a `*Id` field — letting dispatch
reach business logic — exactly when the value is a number strictly greater
than zero; every non-number, NaN, zero and negative value is rejected with
the 400 `Error.Invalid<Field>` error, but positive non-integers such as 5.5
are accepted. -/
theorem claim_C9_validate_id_amended (v : JsValue) (field : String) :
    validateId v field = .ok () ↔ ∃ x : ℚ, v = .num x ∧ 0 < x := by
  cases v with
  | num x =>
      constructor
      · intro h
        refine ⟨x, rfl, ?_⟩
        by_contra hx
        push_neg at hx
        have hcond : (jsFalsy (.num x) || !jsIsNumber (.num x) || jsIsNaN (.num x) ||
            jsLeZero (.num x)) = true := by
          simp [jsFalsy, jsIsNumber, jsIsNaN, jsLeZero, hx]
        rw [validateId, if_pos hcond] at h
        exact absurd h (by simp)
      · rintro ⟨y, hy, hpos⟩
        injection hy with hxy
        subst hxy
        have hcond : (jsFalsy (.num x) || !jsIsNumber (.num x) || jsIsNaN (.num x) ||
            jsLeZero (.num x)) = false := by
          simp [jsFalsy, jsIsNumber, jsIsNaN, jsLeZero, ne_of_gt hpos,
            not_le.mpr hpos]
        rw [validateId, if_neg (by simp [hcond])]
  | nan =>
      simp [validateId, jsFalsy, jsIsNumber, jsIsNaN, jsLeZero]
  | str s =>
      simp [validateId, jsFalsy, jsIsNumber, jsIsNaN, jsLeZero]
  | boolean b =>
      simp [validateId, jsFalsy, jsIsNumber, jsIsNaN, jsLeZero]
  | null =>
      simp [validateId, jsFalsy, jsIsNumber, jsIsNaN, jsLeZero]
  | undef =>
      simp [validateId, jsFalsy, jsIsNumber, jsIsNaN, jsLeZero]
  | obj =>
      simp [validateId, jsFalsy, jsIsNumber, jsIsNaN, jsLeZero]

/-- A ServiceRequest whose id 0 is falsy in JavaScript. -/
def wSrZero : ServiceRequest := { id := 0, preferredDate := 0, status := .PENDING }

/-- A booking linked to the id-0 ServiceRequest. -/
def wBookingZero : Booking :=
  { id := 1, status := .PENDING, staffId := some 9, serviceRequestId := some 0 }

/-- Store for the id-0 ServiceRequest scenario. -/
def stSrZero : Store :=
  { bookings := [wBookingZero], serviceRequests := [wSrZero], reports := [],
    workLogs := [] }

/-- Counterexample to claim C10 as stated: booking 1 is PENDING, has no
prior WorkLog, and its ServiceRequest has no (falsy) id — yet when `now` is
ten days past the preferred date CheckIn fails with the 400
`Error.DateMismatchPreferredDate`, not the claimed 500
`Error.MissingServiceRequestId`: the date check runs before the id check. -/
theorem claim_C10_counterexample :
    bookingServiceRequest stSrZero wBookingZero = some wSrZero ∧
    wSrZero.id = 0 ∧
    stSrZero.workLogs = [] ∧
    createWorkLogWithStatusUpdate stSrZero 9 1 (10 * 86400000) 2 =
      .error ({ error := "Cannot check in far from preferred date",
                code := "Error.DateMismatchPreferredDate",
                path := ["bookingId"], statusCode := 400 }, stSrZero) :=
  ⟨rfl, rfl, rfl, rfl⟩

/-- Claim C10 (amended): for an existing booking that is neither COMPLETED
nor CANCELLED and has no prior WorkLog for the pair, CheckIn fails with the
500 `Error.MissingServiceRequestId` and creates no WorkLog whenever the
booking has no joined ServiceRequest, or its ServiceRequest has the falsy id
0 and a preferred date inside the 1-day window (otherwise the date check
fires first). -/
theorem claim_C10_missing_service_request_amended
    (s : Store) (staffId bookingId : Nat) (now : Int) (newLogId : Nat) (b : Booking)
    (hb : s.bookings.find? (fun x => x.id == bookingId) = some b)
    (hst : ¬(b.status = .COMPLETED ∨ b.status = .CANCELLED))
    (hlog : s.workLogs.find?
      (fun w => w.bookingId == bookingId && w.staffId == staffId) = none)
    (hsr : bookingServiceRequest s b = none ∨
      ∃ sr : ServiceRequest, bookingServiceRequest s b = some sr ∧ sr.id = 0 ∧
        calculateDaysDifference now sr.preferredDate ≤ MAX_DATE_DIFF_DAYS) :
    createWorkLogWithStatusUpdate s staffId bookingId now newLogId =
      .error ({ error := "Missing ServiceRequest ID",
                code := "Error.MissingServiceRequestId",
                path := ["bookingId"], statusCode := 500 }, s) := by
  unfold createWorkLogWithStatusUpdate
  simp only [hb]
  rw [if_neg hst]
  simp only [hlog]
  rcases hsr with hnone | ⟨sr, hsome, hid, hle⟩
  · simp only [hnone]
  · simp only [hsome]
    rw [← calculateDaysDifferenceInt_eq] at hle
    rw [if_neg (not_lt.mpr hle)]
    rw [if_pos (by simp [hid])]

/-- A CONFIRMED booking with no linked ServiceRequest. -/
def wBookingNoSr : Booking :=
  { id := 2, status := .CONFIRMED, staffId := some 7, serviceRequestId := none }

/-- Store for the no-ServiceRequest scenario. -/
def stNoSr : Store :=
  { bookings := [wBookingNoSr], serviceRequests := [], reports := [],
    workLogs := [] }

/-- Witness for the amended C10: checking in to booking 2, which has no
ServiceRequest, fails with the 500 MissingServiceRequestId error with the
store unchanged. -/
theorem claim_C10_missing_service_request_amended_witness :
    stNoSr.bookings.find? (fun x => x.id == 2) = some wBookingNoSr ∧
    ¬(wBookingNoSr.status = .COMPLETED ∨ wBookingNoSr.status = .CANCELLED) ∧
    stNoSr.workLogs.find? (fun w => w.bookingId == 2 && w.staffId == 7) = none ∧
    bookingServiceRequest stNoSr wBookingNoSr = none ∧
    createWorkLogWithStatusUpdate stNoSr 7 2 0 3 =
      .error ({ error := "Missing ServiceRequest ID",
                code := "Error.MissingServiceRequestId",
                path := ["bookingId"], statusCode := 500 }, stNoSr) :=
  ⟨rfl, by decide, rfl, rfl,
   claim_C10_missing_service_request_amended stNoSr 7 2 0 3 wBookingNoSr
     rfl (by decide) rfl (Or.inl rfl)⟩

end StaffSvc
